import Mathlib

/-!
Shallow embedding of the two lithops backend connectors:

* `src/lithops/serverless/backends/gcp_cloudrun/cloudrun.py` (`GCPCloudRunBackend`)
* `src/lithops/standalone/backends/ibm_vpc/ibm_vpc.py` (`IBMVPCInstanceClient`)

CPython string manipulation (`str.replace`, `str.rsplit`, `int(...)`, `str(...)`)
is modelled over `List Char`; provider API *reads* (list/get calls) are inputs of
the model, provider *mutations* (create/delete/attach/action calls) are recorded
in explicit traces; exceptions are modelled with `Except`.
-/

namespace LithopsSpec

/-- Scanner for Python `s.replace(old, new)`: when `skip` is positive the next
character belongs to an already-matched occurrence and is dropped; at `skip = 0`
the pattern `p0 :: pr` is tried at the current position (leftmost,
non-overlapping), emitting `rep` and scheduling `pr.length` further characters
to be skipped on a match. -/
def replaceAllAux (p0 : Char) (pr rep : List Char) : List Char → Nat → List Char
  | [], _ => []
  | _ :: cs, skip + 1 => replaceAllAux p0 pr rep cs skip
  | c :: cs, 0 =>
    if (p0 :: pr) <+: (c :: cs) then rep ++ replaceAllAux p0 pr rep cs pr.length
    else c :: replaceAllAux p0 pr rep cs 0

/-- Python `s.replace(old, new)` (count = -1: replace all occurrences, scanning
left to right, non-overlapping) over char lists.  The nonempty pattern is split
as `p0 :: pr`. -/
def replaceAllL (p0 : Char) (pr rep s : List Char) : List Char :=
  replaceAllAux p0 pr rep s 0

/-- Python `s.replace(old, new, 1)` (replace only the first occurrence). -/
def replaceFirstL (p0 : Char) (pr rep : List Char) : List Char → List Char
  | [] => []
  | c :: cs =>
    if (p0 :: pr) <+: (c :: cs) then rep ++ cs.drop pr.length
    else c :: replaceFirstL p0 pr rep cs

/-- Python `s.rsplit(sep, 1)`: split at the rightmost occurrence of the
separator `p0 :: pr`; `none` when the separator does not occur (in which case
the Python tuple unpacking in `_unformat_service_name` raises `ValueError`). -/
def rsplitOnceL (p0 : Char) (pr : List Char) : List Char → Option (List Char × List Char)
  | [] => none
  | c :: cs =>
    match rsplitOnceL p0 pr cs with
    | some (a, b) => some (c :: a, b)
    | none =>
      if (p0 :: pr) <+: (c :: cs) then some ([], cs.drop pr.length) else none

/-- The decimal digit character of `d` (for `d < 10`). -/
def digitChar : Nat → Char
  | 0 => '0'
  | 1 => '1'
  | 2 => '2'
  | 3 => '3'
  | 4 => '4'
  | 5 => '5'
  | 6 => '6'
  | 7 => '7'
  | 8 => '8'
  | _ => '9'

/-- Fuel-driven digit expansion: correct whenever `n < fuel` (see
`ntd_correct`); the fuel only makes the recursion structural. -/
def ntd (fuel n : Nat) : List Char :=
  match fuel with
  | 0 => []
  | fuel + 1 =>
    if n < 10 then [digitChar n]
    else ntd fuel (n / 10) ++ [digitChar (n % 10)]

/-- Decimal digits of `n`, most significant first: Python `str(n)` for `n : Nat`. -/
def natToDigitsL (n : Nat) : List Char := ntd (n + 1) n

/-- Numeric value of a digit character. -/
def digitVal (c : Char) : Nat := c.toNat - 48

/-- Is `c` a decimal digit? -/
def isDigitCh (c : Char) : Bool := 48 ≤ c.toNat && c.toNat ≤ 57

/-- Python `int(s)` on the digit-string case (the only case reachable from
`_unformat_service_name` on well-formed service names); any non-digit input
raises `ValueError`, modelled as `none`. -/
def pyIntNat (s : List Char) : Option Nat :=
  if s.isEmpty then none
  else if s.all isDigitCh then some (s.foldl (fun a c => 10 * a + digitVal c) 0) else none

/-- No two consecutive `'-'` characters occur in the list. -/
def noDD : List Char → Bool
  | [] => true
  | [_] => true
  | a :: b :: cs => if a = '-' ∧ b = '-' then false else noDD (b :: cs)

/-- The characters of the literal `"lithops"`. -/
def lithopsChars : List Char := ['l', 'i', 't', 'h', 'o', 'p', 's']

/-- The characters of the separator `"--"`. -/
def ddChars : List Char := ['-', '-']

/-- `GCPCloudRunBackend._format_service_name(runtime_name, runtime_memory)`:
`'lithops--{}--{}--{}mb'.format(__version__.replace('.', '-'),
runtime_name.replace('.', ''), runtime_memory)`.  The module global
`__version__` is the `version` parameter. -/
def formatServiceName (version name : List Char) (memory : Nat) : List Char :=
  lithopsChars ++ ddChars ++ replaceAllL '.' [] ['-'] version ++ ddChars ++
    replaceAllL '.' [] [] name ++ ddChars ++ natToDigitsL memory ++ ['m', 'b']

/-- `GCPCloudRunBackend._unformat_service_name(service_name)`:
`runtime_name, memory = service_name.rsplit('--', 1)`;
`image_name = runtime_name.replace('--', '/', 1)`;
`image_name = image_name.replace('--', ':', -1)`;
`return image_name, int(memory.replace('mb', ''))`. -/
def unformatServiceName (s : List Char) : Option (List Char × Nat) :=
  match rsplitOnceL '-' ['-'] s with
  | none => none
  | some (rn, mem) =>
    (pyIntNat (replaceAllL 'm' ['b'] [] mem)).map
      (fun k => (replaceAllL '-' ['-'] [':'] (replaceFirstL '-' ['-'] ['/'] rn), k))

deriving instance DecidableEq for Except

/-- One polled Cloud Run service status (`res['status']` in `create_runtime`):
the list of `cond['status']` strings of `res['status']['conditions']`, and
`res['status']['url']`. -/
structure SvcStatus where
  conditions : List String
  url : String
  deriving DecidableEq

/-- `all(cond['status'] == 'True' for cond in res['status']['conditions'])`. -/
def svcReady (r : SvcStatus) : Bool := r.conditions.all (fun c => c == "True")

/-- The readiness-polling loop of `GCPCloudRunBackend.create_runtime`
(`ready = False; retry = 15; while not ready: ...`).  `polls i` is the status
returned by the `i`-th `services().get` call; `retry` is the remaining budget.
On success the loop leaves the loop with that poll's `url`; when `retry`
reaches `0` after a failed poll, the code raises
`Exception('Maximum retries reached: {}'.format(res))`, modelled as
`.error res` carrying that last observed status. -/
def waitReady (polls : Nat → SvcStatus) : Nat → Nat → Except SvcStatus String
  | i, 0 =>
    let res := polls i
    if svcReady res then .ok res.url else .error res
  | i, retry + 1 =>
    let res := polls i
    if svcReady res then .ok res.url
    else if retry = 0 then .error res
    else waitReady polls (i + 1) retry

/-- The mutable session/endpoint state of a `GCPCloudRunBackend` object:
`_invoker_sess` (modelled as whether a session object exists),
`_invoker_sess_route` and `_service_url`. -/
structure CRState where
  invoker_sess : Bool
  invoker_sess_route : String
  service_url : Option String
  deriving DecidableEq

/-- The poll-and-cache portion of `create_runtime`: run the readiness loop with
budget 15 from the first poll; on success store the last poll's
`res['status']['url']` into `self._service_url`. -/
def createRuntimeWait (polls : Nat → SvcStatus) (st : CRState) : Except SvcStatus CRState :=
  match waitReady polls 0 15 with
  | .ok url => .ok { st with service_url := some url }
  | .error r => .error r

/-- Python exceptions raised by the modelled code paths. -/
inductive PyErr where
  | exn (msg : String)
  | keyError
  | indexError
  | jsonError
  deriving DecidableEq

/-- The decoded JSON body of an invocation response (`res.json()`), keeping the
only field the code reads (`data["activationId"]`, absent modelled as `none`). -/
structure RespBody where
  activationId : Option String
  deriving DecidableEq

/-- `GCPCloudRunBackend.invoke`'s return value: the whole decoded body (when
`return_result` is set) or the extracted activation id. -/
inductive InvRes where
  | fullBody (b : RespBody)
  | actId (s : String)
  deriving DecidableEq

/-- Network calls issued by the modelled Cloud Run methods. -/
inductive CRAction where
  | apiGetService (name : String)
  | post (url : String)
  deriving DecidableEq

/-- Environment of one `invoke` execution: the URL the control plane reports
for the service, and the HTTP response (status code and decoded body, `none`
when `res.json()` would fail) of the POST. -/
structure CREnv where
  serviceUrl : String
  status : Nat
  body : Option RespBody
  deriving DecidableEq

/-- The fields of the `payload` dict that `invoke` reads via `.get`. -/
structure Payload where
  executor_id : Option String
  job_id : Option String
  call_id : Option String
  service_route : Option String
  deriving DecidableEq

/-- `GCPCloudRunBackend._get_service_endpoint`: return the cached
`_service_url`, or fetch it with a `services().get` control-plane call and
cache it. -/
def getServiceEndpoint (env : CREnv) (st : CRState) (svcName : String) :
    String × List CRAction × CRState :=
  match st.service_url with
  | some u => (u, [], st)
  | none =>
    (env.serviceUrl, [CRAction.apiGetService svcName],
      { st with service_url := some env.serviceUrl })

/-- `GCPCloudRunBackend._build_invoker_sess`: rebuild the session when there is
none or the requested route differs from the cached one (resolving the service
endpoint, which may issue a control-plane read); otherwise reuse it. -/
def buildInvokerSess (env : CREnv) (st : CRState) (svcName route : String) :
    List CRAction × CRState :=
  if st.invoker_sess = false ∨ route ≠ st.invoker_sess_route then
    let r := getServiceEndpoint env st svcName
    (r.2.1, { r.2.2 with invoker_sess := true, invoker_sess_route := route })
  else ([], st)

/-- `GCPCloudRunBackend.invoke(runtime_name, memory, payload, return_result)`:
builds the invoker session, POSTs the payload to `endpoint + route`, and for a
status in `(200, 202)` decodes the body and returns it (or its
`"activationId"`); for any other status the method falls through and returns
Python `None`, modelled as `.ok none`. -/
def invokeModel (env : CREnv) (st : CRState) (version runtime_name : String)
    (memory : Nat) (pl : Payload) (return_result : Bool) :
    Except PyErr (Option InvRes) × List CRAction × CRState :=
  let route := pl.service_route.getD "/"
  let svcName : String := ⟨formatServiceName version.data runtime_name.data memory⟩
  let b := buildInvokerSess env st svcName route
  let g := getServiceEndpoint env b.2 svcName
  let tr := b.1 ++ g.2.1 ++ [CRAction.post (g.1 ++ route)]
  if env.status = 200 ∨ env.status = 202 then
    match env.body with
    | none => (.error .jsonError, tr, g.2.2)
    | some data =>
      if return_result then (.ok (some (.fullBody data)), tr, g.2.2)
      else
        match data.activationId with
        | some a => (.ok (some (.actId a)), tr, g.2.2)
        | none => (.error .keyError, tr, g.2.2)
  else (.ok none, tr, g.2.2)

/-- `IBMVPCInstanceClient._generate_name(r_type, job_key, call_id)` with the
randomness of `namegenerator.gen()` supplied by the stream `f` at index `k`
(the index advances only when the random branch actually draws a name):
`if (job_key != None and call_id != None): return "lithops" + str(job_key) +
"-" + str(call_id) + "-" + r_type`; otherwise
`"lithops-" + namegenerator.gen() + "-" + r_type`. -/
def genNameR (r_type : String) (jk cid : Option String) (f : Nat → String) (k : Nat) :
    String × Nat :=
  match jk, cid with
  | some j, some c => ("lithops" ++ j ++ "-" ++ c ++ "-" ++ r_type, k)
  | _, _ => ("lithops-" ++ f k ++ "-" ++ r_type, k + 1)

/-- `_generate_name` for a single call, with `fresh` the one name
`namegenerator.gen()` would produce. -/
def genName (r_type : String) (jk cid : Option String) (fresh : String) : String :=
  (genNameR r_type jk cid (fun _ => fresh) 0).1

/-- A network interface (`id` and `primary_ipv4_address`). -/
structure Nic where
  id : String
  primary_ipv4_address : String
  deriving DecidableEq

/-- The `target` field of a floating IP. -/
structure FipTarget where
  id : String
  primary_ipv4_address : String
  deriving DecidableEq

/-- A floating IP as listed by `service.list_floating_ips()` (`target` absent
modelled as `none`). -/
structure Fip where
  name : String
  id : String
  address : String
  target : Option FipTarget
  deriving DecidableEq

/-- A VM instance as listed by `service.list_instances()`. -/
structure Inst where
  id : String
  name : String
  primary_network_interface : Nic
  network_interfaces : List Nic
  deriving DecidableEq

/-- A floating IP reference inside `nic['floating_ips']` of
`list_instance_network_interfaces`. -/
structure FipRef where
  id : String
  address : String
  deriving DecidableEq

/-- One entry of `response.result['network_interfaces']` in `_delete_instance`
(a missing `'floating_ips'` key is modelled as the empty list — the loop body
is a no-op either way). -/
structure NicFips where
  floating_ips : List FipRef
  deriving DecidableEq

/-- Mutating provider calls issued by the modelled IBM VPC methods. -/
inductive VAction where
  | createInstance (name : String)
  | createFip (name : String)
  | attachFip (instId nicId fipId : String)
  | deleteFip (fipId : String)
  | deleteInstance (instId : String)
  | instanceAction (a : String)
  deriving DecidableEq

/-- Environment of `_create_and_attach_floating_ip`: whether
`list_floating_ips` succeeds (on failure the code logs and proceeds with no
match), its listing, and the outcomes of `create_floating_ip` and
`add_instance_network_interface_floating_ip`. -/
structure AttachEnv where
  listOk : Bool
  fips : List Fip
  createFipResult : Except PyErr Fip
  attachResult : Except PyErr Unit
  deriving DecidableEq

/-- The `for vip in floating_ip_list: if vip['name'] == floating_ip_name:
floating_ip = vip` loop: keeps the *last* listed floating IP with the derived
name. -/
def findFip (fips : List Fip) (name : String) : Option Fip :=
  fips.foldl (fun acc v => if v.name = name then some v else acc) none

/-- Attach step of `_create_and_attach_floating_ip`: attach the floating IP to
`instance['network_interfaces'][0]` (IndexError when that list is empty),
re-raising attach failures; on success return `floating_ip['address']`. -/
def attachGo (env : AttachEnv) (inst : Inst) (fip : Fip) (tr : List VAction) (k : Nat) :
    Except PyErr String × List VAction × Nat :=
  match inst.network_interfaces with
  | [] => (.error .indexError, tr, k)
  | nic0 :: _ =>
    match env.attachResult with
    | .error e => (.error e, tr ++ [VAction.attachFip inst.id nic0.id fip.id], k)
    | .ok _ => (.ok fip.address, tr ++ [VAction.attachFip inst.id nic0.id fip.id], k)

/-- Target check of `_create_and_attach_floating_ip`: `'target' in floating_ip
and floating_ip['target']['primary_ipv4_address'] ==
primary_ni['primary_ipv4_address'] and floating_ip['target']['id'] ==
primary_ni['id']` — when it holds, return the address without attaching;
otherwise fall through to `attachGo`. -/
def attachPhase (env : AttachEnv) (inst : Inst) (fip : Fip) (tr : List VAction) (k : Nat) :
    Except PyErr String × List VAction × Nat :=
  match fip.target with
  | some t =>
    if t.primary_ipv4_address = inst.primary_network_interface.primary_ipv4_address ∧
        t.id = inst.primary_network_interface.id
    then (.ok fip.address, tr, k)
    else attachGo env inst fip tr k
  | none => attachGo env inst fip tr k

/-- `IBMVPCInstanceClient._create_and_attach_floating_ip(instance, job_key,
call_id)`: derive the name, look for an existing floating IP with that name,
allocate one if absent (re-raising allocation failures), then run the
target-check/attach phase. -/
def attachFipModel (env : AttachEnv) (inst : Inst) (jk cid : Option String)
    (f : Nat → String) (k : Nat) : Except PyErr String × List VAction × Nat :=
  match (if env.listOk then findFip env.fips (genNameR "fip" jk cid f k).1 else none) with
  | some fip => attachPhase env inst fip [] (genNameR "fip" jk cid f k).2
  | none =>
    match env.createFipResult with
    | .error e =>
      (.error e, [VAction.createFip (genNameR "fip" jk cid f k).1], (genNameR "fip" jk cid f k).2)
    | .ok fip =>
      attachPhase env inst fip [VAction.createFip (genNameR "fip" jk cid f k).1]
        (genNameR "fip" jk cid f k).2

/-- The relevant mutable configuration of an `IBMVPCInstanceClient`:
`self.config['instance_id']`, `self.config['ip_address']`,
`self.config['delete_on_dismantle']`. -/
structure VpcConfig where
  instance_id : String
  ip_address : Option String
  delete_on_dismantle : Bool
  deriving DecidableEq

/-- Sequential concatenation of all `nic['floating_ips']` entries, in listing
order (the nested `for nic ... for fip ...` loops of `_delete_instance`). -/
def allFips : List NicFips → List FipRef
  | [] => []
  | n :: r => n.floating_ips ++ allFips r

/-- `IBMVPCInstanceClient._delete_instance`: delete every floating IP attached
to any network interface of `self.config['instance_id']`, then delete the
instance itself, in that order. -/
def deleteInstanceModel (nics : List NicFips) (iid : String) : List VAction :=
  ((allFips nics).map (fun p => VAction.deleteFip p.id)) ++ [VAction.deleteInstance iid]

/-- Environment of `create`: the `list_instances` result, the outcome of
`service.create_instance`, the floating-IP environment, and the
`list_instance_network_interfaces` result consulted by `_delete_instance`. -/
structure CreateEnv where
  instances : List Inst
  createInstResult : Except PyErr Inst
  attachEnv : AttachEnv
  nics : List NicFips
  deriving DecidableEq

/-- One iteration of the `for instance in all_instances` scan in `create`:
`_generate_name` is re-evaluated on every iteration, as in the source. -/
def scanStep (jk cid : Option String) (f : Nat → String)
    (st : Bool × Option String × Nat) (inst : Inst) : Bool × Option String × Nat :=
  let n := genNameR "instance" jk cid f st.2.2
  if inst.name = n.1 then (true, some inst.id, n.2) else (st.1, st.2.1, n.2)

/-- The `for instance in all_instances` scan of `create`: accumulates
`(vsi_exists, self.instance_id, next random index)`. -/
def createScan (instances : List Inst) (jk cid : Option String) (f : Nat → String) :
    Bool × Option String × Nat :=
  instances.foldl (scanStep jk cid f) (false, none, 0)

/-- The three `_generate_name` calls made by `_create_instance` (for the
volume, the boot attachment and the instance, in source order); returns the
instance name and the advanced random index. -/
def instCreateNames (jk cid : Option String) (f : Nat → String) (k : Nat) : String × Nat :=
  let n1 := genNameR "volume" jk cid f k
  let n2 := genNameR "boot" jk cid f n1.2
  genNameR "instance" jk cid f n2.2

/-- Result of one `create` execution: the returned pair (or raised exception),
the trace of mutating provider calls, the final `self.config`, and the final
`self.instance_id` (`none` models Python `None`). -/
structure CreateOut where
  result : Except PyErr (String × String)
  trace : List VAction
  cfg : VpcConfig
  instance_id : Option String
  deriving DecidableEq

/-- The attach-or-rollback tail of `create`: call
`_create_and_attach_floating_ip`; on success record the address and return
`(self.instance_id, floating_ip)`; on failure call `_delete_instance` (which
reads `self.config['instance_id']` from `cfg1`) and re-raise the same
exception. -/
def createFinish (env : CreateEnv) (cfg1 : VpcConfig) (iid : String) (instVar : Inst)
    (tr0 : List VAction) (jk cid : Option String) (f : Nat → String) (k : Nat) : CreateOut :=
  match (attachFipModel env.attachEnv instVar jk cid f k).1 with
  | .ok addr =>
    { result := .ok (iid, addr),
      trace := tr0 ++ (attachFipModel env.attachEnv instVar jk cid f k).2.1,
      cfg := { cfg1 with ip_address := some addr }, instance_id := some iid }
  | .error e =>
    { result := .error e,
      trace := tr0 ++ (attachFipModel env.attachEnv instVar jk cid f k).2.1 ++
        deleteInstanceModel env.nics cfg1.instance_id,
      cfg := cfg1, instance_id := some iid }

/-- `IBMVPCInstanceClient.create(job_key, call_id)`: scan `list_instances` for
an instance with the derived name; adopt it if present (note the Python loop
variable `instance` then still holds the *last* listed instance, and
`self.config['instance_id']` is left unchanged); otherwise call
`_create_instance` (updating both `self.instance_id` and
`self.config['instance_id']`), then run the attach-or-rollback tail.  The
`(none, none)` match arm is unreachable: `vsi_exists` implies the listing is
nonempty and an id was recorded. -/
def createModel (env : CreateEnv) (cfg : VpcConfig) (jk cid : Option String)
    (f : Nat → String) : CreateOut :=
  if (createScan env.instances jk cid f).1 = true then
    match env.instances.getLast?, (createScan env.instances jk cid f).2.1 with
    | some instVar, some iid =>
      createFinish env cfg iid instVar [] jk cid f (createScan env.instances jk cid f).2.2
    | _, _ =>
      { result := .error (.exn "unreachable"), trace := [], cfg := cfg,
        instance_id := (createScan env.instances jk cid f).2.1 }
  else
    match env.createInstResult with
    | .error e =>
      { result := .error e,
        trace := [VAction.createInstance
          (instCreateNames jk cid f (createScan env.instances jk cid f).2.2).1],
        cfg := cfg, instance_id := none }
    | .ok inst =>
      createFinish env { cfg with instance_id := inst.id } inst.id inst
        [VAction.createInstance
          (instCreateNames jk cid f (createScan env.instances jk cid f).2.2).1] jk cid f
        (instCreateNames jk cid f (createScan env.instances jk cid f).2.2).2

/-- Environment of `create_instance_action`: the status code of the actions
POST (the code raises unless it is `201`). -/
structure ActionEnv where
  status_code : Nat
  deriving DecidableEq

/-- `IBMVPCInstanceClient.create_instance_action(action)`: reject unknown
actions before any call; POST the action; raise unless the response status is
201.  The subsequent `get_instance` status-polling loop performs reads only
and is not part of the mutation trace. -/
def createInstanceActionModel (env : ActionEnv) (action : String) :
    Except PyErr Unit × List VAction :=
  if action == "start" || action == "reboot" || action == "stop" then
    if env.status_code = 201 then (.ok (), [VAction.instanceAction action])
    else (.error (.exn "action error"), [VAction.instanceAction action])
  else (.error (.exn "bad action"), [])

/-- `IBMVPCInstanceClient.stop`: full teardown via `_delete_instance` when
`self.config['delete_on_dismantle']` is set, otherwise a `'stop'` instance
action via `create_instance_action`. -/
def stopModel (aenv : ActionEnv) (nics : List NicFips) (cfg : VpcConfig) :
    Except PyErr Unit × List VAction :=
  if cfg.delete_on_dismantle then (.ok (), deleteInstanceModel nics cfg.instance_id)
  else createInstanceActionModel aenv "stop"

/-! ### Concrete example data used to exercise the models -/

/-- An instance bearing the job/call-derived name for `job_key = "J"`,
`call_id = "7"`. -/
def w1inst : Inst :=
  { id := "i-1", name := "lithopsJ-7-instance",
    primary_network_interface := { id := "ni1", primary_ipv4_address := "10.0.0.1" },
    network_interfaces := [{ id := "ni1", primary_ipv4_address := "10.0.0.1" }] }

/-- A listing in which the instance named for `("J", "7")` already exists. -/
def w1env : CreateEnv :=
  { instances := [w1inst],
    createInstResult := Except.error (PyErr.exn "unused"),
    attachEnv := { listOk := true, fips := [],
                   createFipResult := Except.error (PyErr.exn "fip"),
                   attachResult := Except.ok () },
    nics := [] }

/-- A starting configuration for the `create`/`stop` examples. -/
def wcfg : VpcConfig := { instance_id := "old", ip_address := none, delete_on_dismantle := true }

/-- A fixed random-name stream. -/
def wf : Nat → String := fun _ => "rnd"

/-- The freshly created instance of the rollback example. -/
def w4inst : Inst :=
  { id := "i-2", name := "newvm",
    primary_network_interface := { id := "ni2", primary_ipv4_address := "10.0.0.2" },
    network_interfaces := [{ id := "ni2", primary_ipv4_address := "10.0.0.2" }] }

/-- An environment in which no instance exists yet, instance creation
succeeds, and floating-IP allocation fails. -/
def w4env : CreateEnv :=
  { instances := [],
    createInstResult := Except.ok w4inst,
    attachEnv := { listOk := true, fips := [],
                   createFipResult := Except.error (PyErr.exn "fipfail"),
                   attachResult := Except.ok () },
    nics := [{ floating_ips := [{ id := "f9", address := "9.9.9.9" }] }] }

/-- The instance of the floating-IP idempotence examples. -/
def c7inst : Inst :=
  { id := "i1", name := "vm1",
    primary_network_interface := { id := "ni1", primary_ipv4_address := "10.0.0.1" },
    network_interfaces := [{ id := "ni1", primary_ipv4_address := "10.0.0.1" }] }

/-- A floating IP bearing the derived name and already bound to `c7inst`'s
primary interface. -/
def c7good : Fip :=
  { name := "lithopsJ-7-fip", id := "f1", address := "1.2.3.4",
    target := some { id := "ni1", primary_ipv4_address := "10.0.0.1" } }

/-- A second floating IP with the same name but no target. -/
def c7bad : Fip :=
  { name := "lithopsJ-7-fip", id := "f2", address := "5.6.7.8", target := none }

/-- A listing holding two floating IPs with the derived name; the matching one
is listed first. -/
def c7env : AttachEnv :=
  { listOk := true, fips := [c7good, c7bad],
    createFipResult := Except.error (PyErr.exn "unused"), attachResult := Except.ok () }

/-- A listing holding exactly the already-bound floating IP. -/
def w7env : AttachEnv :=
  { listOk := true, fips := [c7good],
    createFipResult := Except.error (PyErr.exn "unused"), attachResult := Except.ok () }

/-- A poll sequence that reports readiness from the third poll on. -/
def w2polls : Nat → SvcStatus := fun i =>
  if i < 2 then { conditions := ["False"], url := "u" }
  else { conditions := ["True", "True"], url := "https://svc.example" }

/-- A poll sequence that never reports readiness, with a distinct url per poll
so the raised status identifies the poll it came from. -/
def w2bad : Nat → SvcStatus := fun i =>
  { conditions := ["False"], url := String.mk (natToDigitsL i) }

/-- A fresh backend state: no session, no cached service url. -/
def w2state : CRState := { invoker_sess := false, invoker_sess_route := "/", service_url := none }

/-- A successful invocation environment. -/
def c6env : CREnv :=
  { serviceUrl := "https://svc.example", status := 200,
    body := some { activationId := some "abc123" } }

/-- A payload carrying no ids and no explicit route. -/
def c6payload : Payload :=
  { executor_id := none, job_id := none, call_id := none, service_route := none }

/-- An invocation environment answering HTTP 500. -/
def w5env : CREnv :=
  { serviceUrl := "https://svc.example", status := 500,
    body := some { activationId := some "abc123" } }

/-- Interfaces of the teardown example, with three attached floating IPs. -/
def w8nics : List NicFips :=
  [{ floating_ips := [{ id := "f1", address := "1.1.1.1" }, { id := "f2", address := "2.2.2.2" }] },
   { floating_ips := [{ id := "f3", address := "3.3.3.3" }] }]

/-- `delete_on_dismantle = True` configuration. -/
def w8cfgT : VpcConfig :=
  { instance_id := "i-9", ip_address := some "1.1.1.1", delete_on_dismantle := true }

/-- `delete_on_dismantle = False` configuration. -/
def w8cfgF : VpcConfig :=
  { instance_id := "i-9", ip_address := some "1.1.1.1", delete_on_dismantle := false }

/-- An actions endpoint answering 201. -/
def w8aenv : ActionEnv := { status_code := 201 }

/-! ### Generic lemmas about the modelled CPython string operations -/

theorem noDD_cons (c : Char) (l : List Char) (hc : c ≠ '-') (hl : noDD l = true) :
    noDD (c :: l) = true := by
  cases l with
  | nil => rfl
  | cons d l2 =>
    show (if c = '-' ∧ d = '-' then false else noDD (d :: l2)) = true
    rw [if_neg (fun h => hc h.1)]
    exact hl

theorem noDD_tail (c : Char) (l : List Char) (h : noDD (c :: l) = true) : noDD l = true := by
  cases l with
  | nil => rfl
  | cons d l2 =>
    by_cases hcd : c = '-' ∧ d = '-'
    · rw [show noDD (c :: d :: l2) = if c = '-' ∧ d = '-' then false else noDD (d :: l2) from rfl,
        if_pos hcd] at h
      exact absurd h (by simp)
    · rw [show noDD (c :: d :: l2) = if c = '-' ∧ d = '-' then false else noDD (d :: l2) from rfl,
        if_neg hcd] at h
      exact h

theorem noDD_head (c d : Char) (l : List Char) (h : noDD (c :: d :: l) = true)
    (hc : c = '-') : d ≠ '-' := by
  intro hd
  rw [show noDD (c :: d :: l) = if c = '-' ∧ d = '-' then false else noDD (d :: l) from rfl,
    if_pos ⟨hc, hd⟩] at h
  exact absurd h (by simp)

theorem noDD_append (x y : List Char) (hx : ∀ c ∈ x, c ≠ '-') (hy : noDD y = true) :
    noDD (x ++ y) = true := by
  induction x with
  | nil => exact hy
  | cons c x2 ih =>
    have h2 : noDD (x2 ++ y) = true := ih (fun a ha => hx a (List.mem_cons_of_mem c ha))
    exact noDD_cons c (x2 ++ y) (hx c (List.mem_cons_self c x2)) h2

theorem dd_not_prefix_of_head_ne (c : Char) (cs : List Char) (hc : c ≠ '-') :
    ¬(['-', '-'] <+: (c :: cs)) := by
  intro h
  rw [List.cons_prefix_cons] at h
  exact hc h.1.symm

/-- A `"--"` separator is not a prefix of `'-' :: m` when `m` is dash-free. -/
theorem dd_not_prefix_dashfree (m : List Char) (hm : ∀ c ∈ m, c ≠ '-') :
    ¬(['-', '-'] <+: ('-' :: m)) := by
  intro h
  rw [List.cons_prefix_cons] at h
  cases m with
  | nil => exact (List.cons_ne_nil '-' []) (List.prefix_nil.mp h.2)
  | cons a m2 =>
    rw [List.cons_prefix_cons] at h
    exact hm a (List.mem_cons_self a m2) h.2.1.symm

/-- `rsplit('--', 1)` finds nothing in a dash-free list. -/
theorem rsplitOnceL_dashfree (s : List Char) (hs : ∀ c ∈ s, c ≠ '-') :
    rsplitOnceL '-' ['-'] s = none := by
  induction s with
  | nil => rfl
  | cons c cs ih =>
    have htail : rsplitOnceL '-' ['-'] cs = none :=
      ih (fun a ha => hs a (List.mem_cons_of_mem c ha))
    simp only [rsplitOnceL, htail]
    exact if_neg (dd_not_prefix_of_head_ne c cs (hs c (List.mem_cons_self c cs)))

/-- `rsplit('--', 1)` on `P ++ "--" ++ M` splits at the separator whenever the
suffix `M` is dash-free: the rightmost occurrence of `"--"` starts there. -/
theorem rsplitOnceL_append (p m : List Char) (hm : ∀ c ∈ m, c ≠ '-') :
    rsplitOnceL '-' ['-'] (p ++ '-' :: '-' :: m) = some (p, m) := by
  induction p with
  | nil =>
    have hm1 : rsplitOnceL '-' ['-'] m = none := rsplitOnceL_dashfree m hm
    have hm2 : rsplitOnceL '-' ['-'] ('-' :: m) = none := by
      simp only [rsplitOnceL, hm1]
      exact if_neg (dd_not_prefix_dashfree m hm)
    show rsplitOnceL '-' ['-'] ('-' :: '-' :: m) = some ([], m)
    rw [rsplitOnceL, hm2]
    rw [if_pos (show ['-', '-'] <+: ('-' :: '-' :: m) from ⟨m, rfl⟩)]
    rfl
  | cons c p2 ih =>
    show rsplitOnceL '-' ['-'] (c :: (p2 ++ '-' :: '-' :: m)) = some (c :: p2, m)
    simp only [rsplitOnceL, ih]

theorem head_ne_no_match (p0 c : Char) (pr cs : List Char) (h : p0 ≠ c) :
    ¬((p0 :: pr) <+: (c :: cs)) := by
  intro hp
  rw [List.cons_prefix_cons] at hp
  exact h hp.1

theorem dd_not_prefix_of_second_ne (c d : Char) (cs : List Char) (hd : d ≠ '-') :
    ¬(['-', '-'] <+: (c :: d :: cs)) := by
  intro h
  rw [List.cons_prefix_cons, List.cons_prefix_cons] at h
  exact hd h.2.1.symm

/-- `replace('--', rep, 1)` on `P ++ "--" ++ R` with a dash-free head `P`
replaces exactly the separator. -/
theorem replaceFirstL_append (p r rep : List Char) (hp : ∀ c ∈ p, c ≠ '-') :
    replaceFirstL '-' ['-'] rep (p ++ '-' :: '-' :: r) = p ++ rep ++ r := by
  induction p with
  | nil =>
    show replaceFirstL '-' ['-'] rep ('-' :: '-' :: r) = rep ++ r
    rw [replaceFirstL, if_pos (show ['-', '-'] <+: ('-' :: '-' :: r) from ⟨r, rfl⟩)]
    rfl
  | cons c p2 ih =>
    show replaceFirstL '-' ['-'] rep (c :: (p2 ++ '-' :: '-' :: r)) = c :: (p2 ++ rep ++ r)
    rw [replaceFirstL,
      if_neg (dd_not_prefix_of_head_ne c (p2 ++ '-' :: '-' :: r)
        (hp c (List.mem_cons_self c p2))),
      ih (fun a ha => hp a (List.mem_cons_of_mem c ha))]

/-- `replace('--', rep)` is the identity on a list with no two consecutive
dashes. -/
theorem dd_not_prefix_singleton (c : Char) : ¬(['-', '-'] <+: [c]) := by
  intro h
  have := h.length_le
  simp at this

theorem replaceAllAux_dash_id (rep : List Char) (b : List Char) (hb : noDD b = true) :
    replaceAllAux '-' ['-'] rep b 0 = b := by
  induction b with
  | nil => rfl
  | cons c cs ih =>
    by_cases hc : c = '-'
    · cases cs with
      | nil => rw [replaceAllAux, if_neg (dd_not_prefix_singleton c)]; rfl
      | cons d cs2 =>
        rw [replaceAllAux,
          if_neg (dd_not_prefix_of_second_ne c d cs2 (noDD_head c d cs2 hb hc)),
          ih (noDD_tail c (d :: cs2) hb)]
    · rw [replaceAllAux, if_neg (dd_not_prefix_of_head_ne c cs hc),
        ih (noDD_tail c cs hb)]

/-- `replace('--', rep)` on `A ++ "--" ++ B`: when `A` has no double dash and
does not end in a dash, the separator occurrence is replaced and scanning
continues in `B`. -/
theorem replaceAllAux_dash_append (rep a b : List Char) (ha : noDD a = true)
    (hlast : a.getLast? ≠ some '-') :
    replaceAllAux '-' ['-'] rep (a ++ '-' :: '-' :: b) 0 =
      a ++ rep ++ replaceAllAux '-' ['-'] rep b 0 := by
  induction a with
  | nil =>
    show replaceAllAux '-' ['-'] rep ('-' :: '-' :: b) 0 = rep ++ replaceAllAux '-' ['-'] rep b 0
    rw [replaceAllAux, if_pos (show ['-', '-'] <+: ('-' :: '-' :: b) from ⟨b, rfl⟩)]
    rfl
  | cons c a2 ih =>
    by_cases hc : c = '-'
    · cases a2 with
      | nil => exact absurd (by rw [hc]; rfl) hlast
      | cons d a3 =>
        have hd : d ≠ '-' := noDD_head c d a3 ha hc
        have ih2 := ih (noDD_tail c (d :: a3) ha)
          (by rw [List.getLast?_cons_cons] at hlast; exact hlast)
        simp only [List.cons_append] at ih2 ⊢
        rw [replaceAllAux,
          if_neg (dd_not_prefix_of_second_ne c d (a3 ++ '-' :: '-' :: b) hd), ih2]
    · have h2 : a2.getLast? ≠ some '-' := by
        cases a2 with
        | nil => simp
        | cons d a3 => rw [List.getLast?_cons_cons] at hlast; exact hlast
      have ih2 := ih (noDD_tail c a2 ha) h2
      simp only [List.cons_append] at ih2 ⊢
      rw [replaceAllAux,
        if_neg (dd_not_prefix_of_head_ne c (a2 ++ '-' :: '-' :: b) hc), ih2]

/-- `memory.replace('mb', '')` on digits followed by `"mb"` strips the suffix. -/
theorem replaceAllL_mb (d : List Char) (hd : ∀ c ∈ d, c ≠ 'm') :
    replaceAllL 'm' ['b'] [] (d ++ ['m', 'b']) = d := by
  unfold replaceAllL
  induction d with
  | nil => rfl
  | cons c d2 ih =>
    show replaceAllAux 'm' ['b'] [] (c :: (d2 ++ ['m', 'b'])) 0 = c :: d2
    rw [replaceAllAux,
      if_neg (head_ne_no_match 'm' c ['b'] (d2 ++ ['m', 'b'])
        (Ne.symm (hd c (List.mem_cons_self c d2)))),
      ih (fun a ha => hd a (List.mem_cons_of_mem c ha))]

theorem digitChar_val (d : Nat) (hd : d < 10) : digitVal (digitChar d) = d := by
  interval_cases d <;> decide

theorem digitChar_isDigit (d : Nat) (hd : d < 10) : isDigitCh (digitChar d) = true := by
  interval_cases d <;> decide

theorem isDigitCh_ne_dash (c : Char) (h : isDigitCh c = true) : c ≠ '-' := by
  intro hc
  subst hc
  exact absurd h (by decide)

theorem isDigitCh_ne_m (c : Char) (h : isDigitCh c = true) : c ≠ 'm' := by
  intro hc
  subst hc
  exact absurd h (by decide)

/-- With enough fuel, `ntd` produces a nonempty all-digit list whose decimal
value is `n`. -/
theorem ntd_spec (fuel : Nat) : ∀ n, n < fuel →
    (∀ c ∈ ntd fuel n, isDigitCh c = true) ∧ ntd fuel n ≠ [] ∧
    (ntd fuel n).foldl (fun a c => 10 * a + digitVal c) 0 = n := by
  induction fuel with
  | zero => intro n hn; omega
  | succ fuel ih =>
    intro n hn
    by_cases h10 : n < 10
    · refine ⟨?_, ?_, ?_⟩
      · intro c hc
        rw [ntd, if_pos h10] at hc
        rw [List.mem_singleton.mp hc]
        exact digitChar_isDigit n h10
      · rw [ntd, if_pos h10]; simp
      · rw [ntd, if_pos h10]
        show 10 * 0 + digitVal (digitChar n) = n
        rw [digitChar_val n h10]
        omega
    · have hdiv : n / 10 < fuel := by
        have := Nat.div_lt_self (show 0 < n by omega) (show 1 < 10 by omega)
        omega
      obtain ⟨ha, hb, hc⟩ := ih (n / 10) hdiv
      have hmod : n % 10 < 10 := Nat.mod_lt n (by omega)
      refine ⟨?_, ?_, ?_⟩
      · intro c hcm
        rw [ntd, if_neg h10] at hcm
        rcases List.mem_append.mp hcm with h | h
        · exact ha c h
        · rw [List.mem_singleton.mp h]
          exact digitChar_isDigit (n % 10) hmod
      · rw [ntd, if_neg h10]; simp
      · rw [ntd, if_neg h10, List.foldl_append, hc]
        show 10 * (n / 10) + digitVal (digitChar (n % 10)) = n
        rw [digitChar_val (n % 10) hmod]
        exact Nat.div_add_mod n 10

/-- `str(n)` is a nonempty all-digit string parsing back to `n`. -/
theorem natToDigitsL_spec (n : Nat) :
    (∀ c ∈ natToDigitsL n, isDigitCh c = true) ∧ natToDigitsL n ≠ [] ∧
    (natToDigitsL n).foldl (fun a c => 10 * a + digitVal c) 0 = n :=
  ntd_spec (n + 1) n (Nat.lt_succ_self n)

/-- Python `int(str(n))` recovers `n`. -/
theorem pyIntNat_natToDigitsL (n : Nat) : pyIntNat (natToDigitsL n) = some n := by
  obtain ⟨h1, h2, h3⟩ := natToDigitsL_spec n
  unfold pyIntNat
  rw [if_neg (by simp [h2]), if_pos (List.all_eq_true.mpr h1), h3]

theorem getLast?_append_cons (a : List Char) (c : Char) (r : List Char) :
    (a ++ c :: r).getLast? = (c :: r).getLast? := by
  rw [List.getLast?_append, List.getLast?_eq_getLast (c :: r) (List.cons_ne_nil c r)]
  simp

/-- The service-name round trip, stated over the already-transformed version
and runtime-name components `vd` and `nd`. -/
theorem unformat_glue (vd nd : List Char) (m : Nat)
    (h1 : noDD vd = true) (h2 : vd.getLast? ≠ some '-') (h3 : noDD nd = true) :
    unformatServiceName
        (lithopsChars ++ ddChars ++ vd ++ ddChars ++ nd ++ ddChars ++
          natToDigitsL m ++ ['m', 'b']) =
      some (lithopsChars ++ '/' :: (vd ++ ':' :: nd), m) := by
  have hdig := natToDigitsL_spec m
  have hM : ∀ c ∈ natToDigitsL m ++ ['m', 'b'], c ≠ '-' := by
    intro c hc
    rcases List.mem_append.mp hc with h | h
    · exact isDigitCh_ne_dash c (hdig.1 c h)
    · simp only [List.mem_cons, List.mem_singleton] at h
      rcases h with rfl | rfl | h
      · decide
      · decide
      · exact absurd h (List.not_mem_nil c)
  have hDm : ∀ c ∈ natToDigitsL m, c ≠ 'm' := fun c h => isDigitCh_ne_m c (hdig.1 c h)
  have hA : noDD (lithopsChars ++ '/' :: vd) = true := by
    rw [show lithopsChars ++ '/' :: vd = (lithopsChars ++ ['/']) ++ vd by simp]
    exact noDD_append _ _ (by decide) h1
  have hAlast : (lithopsChars ++ '/' :: vd).getLast? ≠ some '-' := by
    rw [getLast?_append_cons]
    cases vd with
    | nil => decide
    | cons v vd2 => rw [List.getLast?_cons_cons]; exact h2
  have hshape : lithopsChars ++ ddChars ++ vd ++ ddChars ++ nd ++ ddChars ++
      natToDigitsL m ++ ['m', 'b'] =
      (lithopsChars ++ '-' :: '-' :: (vd ++ '-' :: '-' :: nd)) ++
        '-' :: '-' :: (natToDigitsL m ++ ['m', 'b']) := by
    simp [ddChars, List.append_assoc]
  rw [hshape]
  simp only [unformatServiceName]
  rw [rsplitOnceL_append _ _ hM]
  show (pyIntNat (replaceAllL 'm' ['b'] [] (natToDigitsL m ++ ['m', 'b']))).map
      (fun k => (replaceAllL '-' ['-'] [':'] (replaceFirstL '-' ['-'] ['/']
        (lithopsChars ++ '-' :: '-' :: (vd ++ '-' :: '-' :: nd))), k)) = _
  rw [replaceAllL_mb _ hDm, pyIntNat_natToDigitsL]
  have himg : replaceAllL '-' ['-'] [':'] (replaceFirstL '-' ['-'] ['/']
      (lithopsChars ++ '-' :: '-' :: (vd ++ '-' :: '-' :: nd))) =
      lithopsChars ++ '/' :: (vd ++ ':' :: nd) := by
    rw [replaceFirstL_append lithopsChars (vd ++ '-' :: '-' :: nd) ['/'] (by decide)]
    rw [show lithopsChars ++ ['/'] ++ (vd ++ '-' :: '-' :: nd) =
      (lithopsChars ++ '/' :: vd) ++ '-' :: '-' :: nd by simp [List.append_assoc]]
    show replaceAllAux '-' ['-'] [':'] ((lithopsChars ++ '/' :: vd) ++ '-' :: '-' :: nd) 0 = _
    rw [replaceAllAux_dash_append [':'] (lithopsChars ++ '/' :: vd) nd hA hAlast,
      replaceAllAux_dash_id [':'] nd h3]
    simp [List.append_assoc]
  rw [himg]
  rfl

/-! ### Lemmas about the IBM VPC resource namer -/

/-- Splitting at a separator dash is unambiguous when the parts before it are
dash-free. -/
theorem dashfree_split (d1 : List Char) : ∀ (d2 t1 t2 : List Char), '-' ∉ d1 → '-' ∉ d2 →
    d1 ++ '-' :: t1 = d2 ++ '-' :: t2 → d1 = d2 ∧ t1 = t2 := by
  induction d1 with
  | nil =>
    intro d2 t1 t2 _ h2 h
    cases d2 with
    | nil => exact ⟨rfl, (List.cons.injEq '-' t1 '-' t2 ▸ h).2⟩
    | cons d d2r =>
      exfalso
      have hd : '-' = d := (List.cons.injEq '-' t1 d (d2r ++ '-' :: t2) ▸ h).1
      exact h2 (hd ▸ List.mem_cons_self d d2r)
  | cons c d1r ih =>
    intro d2 t1 t2 h1 h2 h
    cases d2 with
    | nil =>
      exfalso
      have hc : c = '-' := (List.cons.injEq c (d1r ++ '-' :: t1) '-' t2 ▸ h).1
      exact h1 (hc ▸ List.mem_cons_self c d1r)
    | cons d d2r =>
      have hcd : c = d := (List.cons.injEq c (d1r ++ '-' :: t1) d (d2r ++ '-' :: t2) ▸ h).1
      have htl := (List.cons.injEq c (d1r ++ '-' :: t1) d (d2r ++ '-' :: t2) ▸ h).2
      obtain ⟨ha, hb⟩ := ih d2r t1 t2 (fun hm => h1 (List.mem_cons_of_mem c hm))
        (fun hm => h2 (List.mem_cons_of_mem d hm)) htl
      exact ⟨by rw [hcd, ha], hb⟩

/-- The job/call branch of `_generate_name` is injective in `(job_key,
call_id)` as long as the call ids are dash-free. -/
theorem genName_some_inj (rt j1 c1 j2 c2 f1 f2 : String)
    (hc1 : '-' ∉ c1.data) (hc2 : '-' ∉ c2.data)
    (h : genName rt (some j1) (some c1) f1 = genName rt (some j2) (some c2) f2) :
    j1 = j2 ∧ c1 = c2 := by
  have h0 : "lithops" ++ j1 ++ "-" ++ c1 ++ "-" ++ rt =
      "lithops" ++ j2 ++ "-" ++ c2 ++ "-" ++ rt := h
  have hd := congrArg String.data h0
  simp only [String.data_append, List.append_assoc] at hd
  have h3 := List.append_cancel_left hd
  have h4 := congrArg List.reverse h3
  simp only [List.reverse_append, List.reverse_cons, List.append_assoc,
    List.nil_append, List.cons_append, List.reverse_nil] at h4
  have h5 := List.append_cancel_left h4
  have h6 : c1.data.reverse ++ '-' :: j1.data.reverse =
      c2.data.reverse ++ '-' :: j2.data.reverse := by
    have := (List.cons.injEq '-' (c1.data.reverse ++ '-' :: j1.data.reverse)
      '-' (c2.data.reverse ++ '-' :: j2.data.reverse)).mp ?_
    · exact this.2
    · exact h5
  obtain ⟨ha, hb⟩ := dashfree_split c1.data.reverse c2.data.reverse _ _
    (fun hm => hc1 (List.mem_reverse.mp hm)) (fun hm => hc2 (List.mem_reverse.mp hm)) h6
  exact ⟨String.ext (List.reverse_injective hb), String.ext (List.reverse_injective ha)⟩

/-- The random branch of `_generate_name` is injective in the drawn random
suffix. -/
theorem genName_random_inj (rt f1 f2 : String)
    (h : "lithops-" ++ f1 ++ "-" ++ rt = "lithops-" ++ f2 ++ "-" ++ rt) : f1 = f2 := by
  have hd := congrArg String.data h
  simp only [String.data_append, List.append_assoc] at hd
  have h3 := List.append_cancel_left hd
  exact String.ext (List.append_cancel_right h3)

/-! ### Lemmas about the Cloud Run readiness-polling loop -/

/-- If the first all-`'True'` poll is poll `i + j` and it falls inside the
budget, the loop exits there with that poll's url. -/
theorem waitReady_ok (polls : Nat → SvcStatus) : ∀ (j r i : Nat), j < r →
    svcReady (polls (i + j)) = true →
    (∀ k, k < j → svcReady (polls (i + k)) = false) →
    waitReady polls i r = .ok (polls (i + j)).url := by
  intro j
  induction j with
  | zero =>
    intro r i hr hready _
    rw [Nat.add_zero] at hready
    cases r with
    | zero => omega
    | succ r2 =>
      simp only [waitReady]
      rw [if_pos hready, Nat.add_zero]
  | succ j ih =>
    intro r i hr hready hk
    have h0 : svcReady (polls i) = false := by
      have := hk 0 (Nat.succ_pos j)
      rwa [Nat.add_zero] at this
    cases r with
    | zero => omega
    | succ r2 =>
      have hr2 : j < r2 := by omega
      have hr2pos : r2 ≠ 0 := by omega
      simp only [waitReady]
      rw [if_neg (by rw [h0]; simp), if_neg hr2pos]
      have harg : i + 1 + j = i + (j + 1) := by omega
      have hready2 : svcReady (polls (i + 1 + j)) = true := by rw [harg]; exact hready
      have hk2 : ∀ k, k < j → svcReady (polls (i + 1 + k)) = false := by
        intro k hkj
        have : i + 1 + k = i + (k + 1) := by omega
        rw [this]
        exact hk (k + 1) (by omega)
      rw [ih r2 (i + 1) hr2 hready2 hk2, harg]

/-- If no poll inside the budget is all-`'True'`, the loop raises with the
last polled status. -/
theorem waitReady_err (polls : Nat → SvcStatus) : ∀ (r i : Nat),
    (∀ k, k < r + 1 → svcReady (polls (i + k)) = false) →
    waitReady polls i (r + 1) = .error (polls (i + r)) := by
  intro r
  induction r with
  | zero =>
    intro i hk
    have h0 : svcReady (polls i) = false := by
      have := hk 0 Nat.zero_lt_one
      rwa [Nat.add_zero] at this
    rw [waitReady]
    rw [if_neg (by rw [h0]; simp), if_pos rfl, Nat.add_zero]
  | succ r ih =>
    intro i hk
    have h0 : svcReady (polls i) = false := by
      have := hk 0 (by omega)
      rwa [Nat.add_zero] at this
    rw [waitReady]
    rw [if_neg (by rw [h0]; simp), if_neg (Nat.succ_ne_zero r)]
    have hk2 : ∀ k, k < r + 1 → svcReady (polls (i + 1 + k)) = false := by
      intro k hkr
      have : i + 1 + k = i + (k + 1) := by omega
      rw [this]
      exact hk (k + 1) (by omega)
    rw [ih (i + 1) hk2]
    have : i + 1 + r = i + (r + 1) := by omega
    rw [this]

/-! ### Lemmas about the `create` scan of `list_instances` -/

/-- Behaviour of the adoption scan under a fully specified job/call identity:
`vsi_exists` is set iff some listed instance bears the derived name; when it
is set, `self.instance_id` holds the id of such an instance. -/
theorem scan_spec (j c : String) (f : Nat → String) : ∀ (l : List Inst)
    (b : Bool) (o : Option String) (k : Nat),
    ((l.foldl (scanStep (some j) (some c) f) (b, o, k)).1 = true ↔
      (b = true ∨ ∃ i ∈ l, i.name = genName "instance" (some j) (some c) "")) ∧
    (∀ iid, (l.foldl (scanStep (some j) (some c) f) (b, o, k)).2.1 = some iid →
      (o = some iid ∨ ∃ i ∈ l, i.name = genName "instance" (some j) (some c) "" ∧ i.id = iid)) ∧
    ((b = true → ∃ x, o = some x) →
      (l.foldl (scanStep (some j) (some c) f) (b, o, k)).1 = true →
      ∃ x, (l.foldl (scanStep (some j) (some c) f) (b, o, k)).2.1 = some x) := by
  intro l
  induction l with
  | nil =>
    intro b o k
    refine ⟨by simp, fun iid h => Or.inl h, fun hbo hb => hbo hb⟩
  | cons i0 l ih =>
    intro b o k
    have hstep : scanStep (some j) (some c) f (b, o, k) i0 =
        if i0.name = genName "instance" (some j) (some c) "" then (true, some i0.id, k)
        else (b, o, k) := rfl
    by_cases hi : i0.name = genName "instance" (some j) (some c) ""
    · have hfold : (i0 :: l).foldl (scanStep (some j) (some c) f) (b, o, k) =
          l.foldl (scanStep (some j) (some c) f) (true, some i0.id, k) := by
        rw [List.foldl_cons, hstep, if_pos hi]
      obtain ⟨ih1, ih2, ih3⟩ := ih true (some i0.id) k
      refine ⟨?_, ?_, ?_⟩
      · rw [hfold, ih1]
        constructor
        · intro _; exact Or.inr ⟨i0, List.mem_cons_self i0 l, hi⟩
        · intro _; exact Or.inl rfl
      · intro iid hiid
        rw [hfold] at hiid
        rcases ih2 iid hiid with h | ⟨i2, hi2, hn2, hid2⟩
        · exact Or.inr ⟨i0, List.mem_cons_self i0 l, hi, Option.some.injEq _ _ ▸ h⟩
        · exact Or.inr ⟨i2, List.mem_cons_of_mem i0 hi2, hn2, hid2⟩
      · intro _ hb
        rw [hfold] at hb ⊢
        exact ih3 (fun _ => ⟨i0.id, rfl⟩) hb
    · have hfold : (i0 :: l).foldl (scanStep (some j) (some c) f) (b, o, k) =
          l.foldl (scanStep (some j) (some c) f) (b, o, k) := by
        rw [List.foldl_cons, hstep, if_neg hi]
      obtain ⟨ih1, ih2, ih3⟩ := ih b o k
      refine ⟨?_, ?_, ?_⟩
      · rw [hfold, ih1]
        constructor
        · rintro (h | ⟨i2, hi2, hn2⟩)
          · exact Or.inl h
          · exact Or.inr ⟨i2, List.mem_cons_of_mem i0 hi2, hn2⟩
        · rintro (h | ⟨i2, hi2, hn2⟩)
          · exact Or.inl h
          · rcases List.mem_cons.mp hi2 with rfl | hmem
            · exact absurd hn2 hi
            · exact Or.inr ⟨i2, hmem, hn2⟩
      · intro iid hiid
        rw [hfold] at hiid
        rcases ih2 iid hiid with h | ⟨i2, hi2, hn2, hid2⟩
        · exact Or.inl h
        · exact Or.inr ⟨i2, List.mem_cons_of_mem i0 hi2, hn2, hid2⟩
      · intro hbo hb
        rw [hfold] at hb ⊢
        exact ih3 hbo hb

/-! ### Lemmas about the attach / rollback plumbing of `create` -/

theorem createScan_eq (l : List Inst) (jk cid : Option String) (f : Nat → String) :
    createScan l jk cid f = l.foldl (scanStep jk cid f) (false, none, 0) := rfl

theorem attachGo_no_ci (env : AttachEnv) (inst : Inst) (fip : Fip) (tr : List VAction)
    (k : Nat) (s : String) (h : VAction.createInstance s ∉ tr) :
    VAction.createInstance s ∉ (attachGo env inst fip tr k).2.1 := by
  unfold attachGo
  cases inst.network_interfaces with
  | nil => exact h
  | cons nic0 rest =>
    cases env.attachResult with
    | error e =>
      intro hmem
      rcases List.mem_append.mp hmem with h1 | h1
      · exact h h1
      · simp at h1
    | ok u =>
      intro hmem
      rcases List.mem_append.mp hmem with h1 | h1
      · exact h h1
      · simp at h1

theorem attachPhase_no_ci (env : AttachEnv) (inst : Inst) (fip : Fip) (tr : List VAction)
    (k : Nat) (s : String) (h : VAction.createInstance s ∉ tr) :
    VAction.createInstance s ∉ (attachPhase env inst fip tr k).2.1 := by
  unfold attachPhase
  split
  · split
    · exact h
    · exact attachGo_no_ci env inst fip tr k s h
  · exact attachGo_no_ci env inst fip tr k s h

theorem attach_no_ci (env : AttachEnv) (inst : Inst) (jk cid : Option String)
    (f : Nat → String) (k : Nat) (s : String) :
    VAction.createInstance s ∉ (attachFipModel env inst jk cid f k).2.1 := by
  unfold attachFipModel
  split
  · exact attachPhase_no_ci env inst _ [] (genNameR "fip" jk cid f k).2 s (by simp)
  · split
    · simp
    · exact attachPhase_no_ci env inst _ [VAction.createFip (genNameR "fip" jk cid f k).1]
        (genNameR "fip" jk cid f k).2 s (by simp)

theorem delete_no_ci (nics : List NicFips) (iid : String) (s : String) :
    VAction.createInstance s ∉ deleteInstanceModel nics iid := by
  simp [deleteInstanceModel]

theorem createFinish_no_ci (env : CreateEnv) (cfg1 : VpcConfig) (iid : String)
    (instVar : Inst) (tr0 : List VAction) (jk cid : Option String) (f : Nat → String)
    (k : Nat) (s : String) (h : VAction.createInstance s ∉ tr0) :
    VAction.createInstance s ∉ (createFinish env cfg1 iid instVar tr0 jk cid f k).trace := by
  unfold createFinish
  cases ha : (attachFipModel env.attachEnv instVar jk cid f k).1 with
  | ok addr =>
    intro hmem
    rcases List.mem_append.mp hmem with h1 | h1
    · exact h h1
    · exact attach_no_ci env.attachEnv instVar jk cid f k s h1
  | error e =>
    intro hmem
    rcases List.mem_append.mp hmem with h1 | h1
    · rcases List.mem_append.mp h1 with h2 | h2
      · exact h h2
      · exact attach_no_ci env.attachEnv instVar jk cid f k s h2
    · exact delete_no_ci env.nics cfg1.instance_id s h1

theorem createFinish_instance_id (env : CreateEnv) (cfg1 : VpcConfig) (iid : String)
    (instVar : Inst) (tr0 : List VAction) (jk cid : Option String) (f : Nat → String)
    (k : Nat) :
    (createFinish env cfg1 iid instVar tr0 jk cid f k).instance_id = some iid := by
  unfold createFinish
  cases (attachFipModel env.attachEnv instVar jk cid f k).1 <;> rfl

theorem createFinish_mem_tr0 (env : CreateEnv) (cfg1 : VpcConfig) (iid : String)
    (instVar : Inst) (tr0 : List VAction) (jk cid : Option String) (f : Nat → String)
    (k : Nat) (x : VAction) (h : x ∈ tr0) :
    x ∈ (createFinish env cfg1 iid instVar tr0 jk cid f k).trace := by
  unfold createFinish
  cases (attachFipModel env.attachEnv instVar jk cid f k).1 with
  | ok addr => exact List.mem_append.mpr (Or.inl h)
  | error e => exact List.mem_append.mpr (Or.inl (List.mem_append.mpr (Or.inl h)))

theorem createFinish_err (env : CreateEnv) (cfg1 : VpcConfig) (iid : String)
    (instVar : Inst) (tr0 : List VAction) (jk cid : Option String) (f : Nat → String)
    (k : Nat) (e : PyErr)
    (hatt : (attachFipModel env.attachEnv instVar jk cid f k).1 = .error e) :
    createFinish env cfg1 iid instVar tr0 jk cid f k =
      { result := .error e,
        trace := tr0 ++ (attachFipModel env.attachEnv instVar jk cid f k).2.1 ++
          deleteInstanceModel env.nics cfg1.instance_id,
        cfg := cfg1, instance_id := some iid } := by
  unfold createFinish
  rw [hatt]

/-! ### Claim theorems -/

/-- C1 (confirmed): with a fully specified job/call identity, `create` is
idempotent at the instance level: if the `list_instances` result already holds
an instance named exactly `_generate_name('instance', job_key, call_id)` (a
name independent of the random stream in this branch, written here with the
dummy fresh suffix `""`), `create` adopts it — `self.instance_id` is set to
the id of such an instance and no `create_instance` call appears in the trace;
and when no instance bears the derived name, a `create_instance` call for that
name is issued. -/
theorem create_adopt_idempotent (env : CreateEnv) (cfg : VpcConfig) (j c : String)
    (f : Nat → String) :
    ((∃ i ∈ env.instances, i.name = genName "instance" (some j) (some c) "") →
      (∀ s, VAction.createInstance s ∉ (createModel env cfg (some j) (some c) f).trace) ∧
      ∃ i ∈ env.instances, i.name = genName "instance" (some j) (some c) "" ∧
        (createModel env cfg (some j) (some c) f).instance_id = some i.id) ∧
    ((∀ i ∈ env.instances, i.name ≠ genName "instance" (some j) (some c) "") →
      VAction.createInstance (genName "instance" (some j) (some c) "") ∈
        (createModel env cfg (some j) (some c) f).trace) := by
  obtain ⟨hs1, hs2, hs3⟩ := scan_spec j c f env.instances false none 0
  constructor
  · rintro ⟨i, hi, hname⟩
    have hex : (createScan env.instances (some j) (some c) f).1 = true := by
      rw [createScan_eq]
      exact hs1.mpr (Or.inr ⟨i, hi, hname⟩)
    have hnil : env.instances ≠ [] := List.ne_nil_of_mem hi
    obtain ⟨gl, hgl⟩ : ∃ gl, env.instances.getLast? = some gl :=
      ⟨env.instances.getLast hnil, List.getLast?_eq_getLast _ hnil⟩
    obtain ⟨iid, hiid⟩ : ∃ x, (createScan env.instances (some j) (some c) f).2.1 = some x := by
      rw [createScan_eq]
      refine hs3 (fun hh => absurd hh (by simp)) ?_
      rw [← createScan_eq]
      exact hex
    have hmodel : createModel env cfg (some j) (some c) f =
        createFinish env cfg iid gl [] (some j) (some c) f
          (createScan env.instances (some j) (some c) f).2.2 := by
      unfold createModel
      rw [if_pos hex, hgl, hiid]
    refine ⟨?_, ?_⟩
    · intro s
      rw [hmodel]
      exact createFinish_no_ci env cfg iid gl [] (some j) (some c) f _ s (by simp)
    · rw [createScan_eq] at hiid
      rcases hs2 iid hiid with h | ⟨i2, hmem, hn2, hid2⟩
      · exact absurd h (by simp)
      · refine ⟨i2, hmem, hn2, ?_⟩
        rw [hmodel, createFinish_instance_id, hid2]
  · intro hall
    have hnex : ¬((createScan env.instances (some j) (some c) f).1 = true) := by
      rw [createScan_eq, hs1]
      rintro (h | ⟨i2, hmem, hn2⟩)
      · simp at h
      · exact hall i2 hmem hn2
    unfold createModel
    rw [if_neg hnex]
    cases hcr : env.createInstResult with
    | error e =>
      show VAction.createInstance _ ∈ [VAction.createInstance
        (instCreateNames (some j) (some c) f _).1]
      exact List.mem_singleton.mpr rfl
    | ok inst =>
      apply createFinish_mem_tr0
      exact List.mem_singleton.mpr rfl

/-- C4 (confirmed): when `create` goes through the instance-creation branch
(no instance with the derived name existed, `create_instance` succeeded) and
`_create_and_attach_floating_ip` then raises `e`, `create` runs
`_delete_instance` — deleting every floating IP attached to the new
instance's interfaces and then the instance itself, in that order — and
re-raises the same `e`. -/
theorem create_rollback_on_attach_failure (env : CreateEnv) (cfg : VpcConfig)
    (jk cid : Option String) (f : Nat → String) (inst : Inst) (e : PyErr)
    (hnew : (createScan env.instances jk cid f).1 = false)
    (hok : env.createInstResult = Except.ok inst)
    (hatt : (attachFipModel env.attachEnv inst jk cid f
      (instCreateNames jk cid f (createScan env.instances jk cid f).2.2).2).1 =
      Except.error e) :
    (createModel env cfg jk cid f).result = Except.error e ∧
    (createModel env cfg jk cid f).trace =
      VAction.createInstance
          (instCreateNames jk cid f (createScan env.instances jk cid f).2.2).1 ::
        ((attachFipModel env.attachEnv inst jk cid f
          (instCreateNames jk cid f (createScan env.instances jk cid f).2.2).2).2.1 ++
          (((allFips env.nics).map (fun p => VAction.deleteFip p.id)) ++
            [VAction.deleteInstance inst.id])) := by
  have hmodel : createModel env cfg jk cid f =
      createFinish env { cfg with instance_id := inst.id } inst.id inst
        [VAction.createInstance
          (instCreateNames jk cid f (createScan env.instances jk cid f).2.2).1]
        jk cid f (instCreateNames jk cid f (createScan env.instances jk cid f).2.2).2 := by
    unfold createModel
    rw [if_neg (by rw [hnew]; simp), hok]
  rw [hmodel, createFinish_err env _ inst.id inst _ jk cid f _ e hatt]
  refine ⟨rfl, ?_⟩
  show [VAction.createInstance _] ++ _ ++ deleteInstanceModel env.nics inst.id = _
  simp [deleteInstanceModel, List.append_assoc]

/-- Witness for C1: with `("J", "7")` and a listing already holding the
derived-name instance, `create` adopts it. -/
theorem create_adopt_idempotent_witness :
    (∃ i ∈ w1env.instances, i.name = genName "instance" (some "J") (some "7") "") ∧
    ((∀ s, VAction.createInstance s ∉
        (createModel w1env wcfg (some "J") (some "7") wf).trace) ∧
      ∃ i ∈ w1env.instances, i.name = genName "instance" (some "J") (some "7") "" ∧
        (createModel w1env wcfg (some "J") (some "7") wf).instance_id = some i.id) :=
  ⟨by decide, (create_adopt_idempotent w1env wcfg "J" "7" wf).1 (by decide)⟩

/-- Witness for C4: instance creation succeeds, floating-IP allocation fails,
and `create` re-raises that failure after rolling back. -/
theorem create_rollback_on_attach_failure_witness :
    ((createScan w4env.instances (some "J") (some "7") wf).1 = false ∧
      w4env.createInstResult = Except.ok w4inst) ∧
    (createModel w4env wcfg (some "J") (some "7") wf).result =
      Except.error (PyErr.exn "fipfail") :=
  ⟨⟨by decide, rfl⟩,
    (create_rollback_on_attach_failure w4env wcfg (some "J") (some "7") wf w4inst
      (PyErr.exn "fipfail") (by decide) rfl (by decide)).1⟩

/-- C7 (corrected): the skip-allocation-and-attach path of
`_create_and_attach_floating_ip` fires when the floating IP *selected by the
scan* — the last listed one bearing the derived name — has a target matching
the instance's primary interface; then nothing is allocated, nothing is
attached, and its address is returned. -/
theorem attach_idempotent_amended (env : AttachEnv) (inst : Inst) (jk cid : Option String)
    (f : Nat → String) (k : Nat) (fip : Fip) (t : FipTarget)
    (hlist : env.listOk = true)
    (hfind : findFip env.fips (genNameR "fip" jk cid f k).1 = some fip)
    (ht : fip.target = some t)
    (hip : t.primary_ipv4_address = inst.primary_network_interface.primary_ipv4_address)
    (hid : t.id = inst.primary_network_interface.id) :
    attachFipModel env inst jk cid f k =
      (Except.ok fip.address, [], (genNameR "fip" jk cid f k).2) := by
  unfold attachFipModel
  rw [if_pos hlist, hfind]
  show attachPhase env inst fip [] (genNameR "fip" jk cid f k).2 = _
  unfold attachPhase
  rw [ht]
  show (if t.primary_ipv4_address = inst.primary_network_interface.primary_ipv4_address ∧
      t.id = inst.primary_network_interface.id
    then (Except.ok fip.address, ([] : List VAction), (genNameR "fip" jk cid f k).2)
    else attachGo env inst fip [] (genNameR "fip" jk cid f k).2) = _
  rw [if_pos ⟨hip, hid⟩]

/-- Counterexample for C7 as frozen: the listing contains a floating IP whose
name equals the derived name and whose target matches the instance's primary
interface (`c7good`), yet — because a *later* entry bears the same name — the
code still issues an attach call and returns the later entry's address. -/
theorem attach_idempotent_counterexample :
    (c7good ∈ c7env.fips ∧
      c7good.name = (genNameR "fip" (some "J") (some "7") wf 0).1 ∧
      c7good.target = some ⟨c7inst.primary_network_interface.id,
        c7inst.primary_network_interface.primary_ipv4_address⟩) ∧
    attachFipModel c7env c7inst (some "J") (some "7") wf 0 =
      (Except.ok "5.6.7.8", [VAction.attachFip "i1" "ni1" "f2"], 0) := by decide

/-- Witness for the amended C7: with a single listed floating IP bearing the
derived name and already bound, no allocation and no attach happen. -/
theorem attach_idempotent_amended_witness :
    (w7env.listOk = true ∧
      findFip w7env.fips (genNameR "fip" (some "J") (some "7") wf 0).1 = some c7good) ∧
    attachFipModel w7env c7inst (some "J") (some "7") wf 0 =
      (Except.ok c7good.address, [], (genNameR "fip" (some "J") (some "7") wf 0).2) :=
  ⟨⟨rfl, by decide⟩,
    attach_idempotent_amended w7env c7inst (some "J") (some "7") wf 0 c7good
      { id := "ni1", primary_ipv4_address := "10.0.0.1" } rfl (by decide) rfl rfl rfl⟩

theorem createInstanceActionModel_stop_trace (aenv : ActionEnv) :
    (createInstanceActionModel aenv "stop").2 = [VAction.instanceAction "stop"] := by
  unfold createInstanceActionModel
  rw [if_pos (by decide)]
  split <;> rfl

/-- C8 (confirmed): `stop` with `delete_on_dismantle` set releases every
floating IP attached to any of the instance's network interfaces and then
deletes the instance, in that order; with the flag unset it issues only the
`'stop'` instance action and releases nothing. -/
theorem stop_policy (aenv : ActionEnv) (nics : List NicFips) (cfg : VpcConfig) :
    (cfg.delete_on_dismantle = true →
      (stopModel aenv nics cfg).2 =
        ((allFips nics).map (fun p => VAction.deleteFip p.id)) ++
          [VAction.deleteInstance cfg.instance_id]) ∧
    (cfg.delete_on_dismantle = false →
      (stopModel aenv nics cfg).2 = [VAction.instanceAction "stop"] ∧
      ∀ x, VAction.deleteFip x ∉ (stopModel aenv nics cfg).2) := by
  constructor
  · intro h
    unfold stopModel
    rw [if_pos h]
    rfl
  · intro h
    have hneg : ¬(cfg.delete_on_dismantle = true) := by rw [h]; simp
    unfold stopModel
    rw [if_neg hneg]
    refine ⟨createInstanceActionModel_stop_trace aenv, ?_⟩
    intro x hmem
    rw [createInstanceActionModel_stop_trace aenv] at hmem
    simp at hmem

/-- Witness for C8: both policy branches on a two-interface,
three-floating-IP instance. -/
theorem stop_policy_witness :
    (w8cfgT.delete_on_dismantle = true ∧
      (stopModel w8aenv w8nics w8cfgT).2 =
        ((allFips w8nics).map (fun p => VAction.deleteFip p.id)) ++
          [VAction.deleteInstance w8cfgT.instance_id]) ∧
    (w8cfgF.delete_on_dismantle = false ∧
      (stopModel w8aenv w8nics w8cfgF).2 = [VAction.instanceAction "stop"] ∧
      ∀ x, VAction.deleteFip x ∉ (stopModel w8aenv w8nics w8cfgF).2) :=
  ⟨⟨rfl, (stop_policy w8aenv w8nics w8cfgT).1 rfl⟩,
   ⟨rfl, (stop_policy w8aenv w8nics w8cfgF).2 rfl⟩⟩

/-- Counterexample for C9 as frozen: over arbitrary string-valued identity
components the job/call names are *not* collision-free — `("a-b", "c")` and
`("a", "b-c")` are distinct identities mapped to the same name. -/
theorem genName_collision_counterexample :
    genName "instance" (some "a-b") (some "c") "x" =
      genName "instance" (some "a") (some "b-c") "x" ∧
    (("a-b", "c") : String × String) ≠ ("a", "b-c") := by decide

/-- C9 (corrected): the job/call-scoped name is independent of the random
stream (the same `(job_key, call_id)` always yields the same name), and —
provided the call ids contain no `'-'`, as lithops call ids (zero-padded
decimals) do — distinct `(job_key, call_id)` pairs always yield distinct
names. -/
theorem genName_jobcall_injective (rt j1 c1 j2 c2 f1 f2 : String)
    (hc1 : '-' ∉ c1.data) (hc2 : '-' ∉ c2.data) :
    genName rt (some j1) (some c1) f1 = genName rt (some j1) (some c1) f2 ∧
    ((j1, c1) ≠ (j2, c2) →
      genName rt (some j1) (some c1) f1 ≠ genName rt (some j2) (some c2) f2) := by
  refine ⟨rfl, fun hne h => ?_⟩
  obtain ⟨hj, hc⟩ := genName_some_inj rt j1 c1 j2 c2 f1 f2 hc1 hc2 h
  exact hne (by rw [hj, hc])

/-- Witness for the amended C9 at the identities `("J", "7")` and
`("J", "8")`. -/
theorem genName_jobcall_injective_witness :
    ('-' ∉ ("7" : String).data ∧ '-' ∉ ("8" : String).data ∧
      (("J", "7") : String × String) ≠ ("J", "8")) ∧
    genName "instance" (some "J") (some "7") "x" ≠
      genName "instance" (some "J") (some "8") "y" :=
  ⟨by decide,
    (genName_jobcall_injective "instance" "J" "7" "J" "8" "x" "y"
      (by decide) (by decide)).2 (by decide)⟩

/-- C10 (confirmed): `_generate_name` takes the deterministic branch only when
both `job_key` and `call_id` are non-`None`; if either is `None` the name is
built from the freshly drawn random suffix, so distinct draws yield distinct
names, while the both-`some` branch is the job/call concatenation regardless
of the stream. -/
theorem genName_partial_identity (rt : String) (jk cid : Option String)
    (fresh f1 f2 j c : String) (h : jk = none ∨ cid = none) :
    genName rt jk cid fresh = "lithops-" ++ fresh ++ "-" ++ rt ∧
    (f1 ≠ f2 → genName rt jk cid f1 ≠ genName rt jk cid f2) ∧
    genName rt (some j) (some c) fresh = "lithops" ++ j ++ "-" ++ c ++ "-" ++ rt := by
  have hbranch : ∀ g : String, genName rt jk cid g = "lithops-" ++ g ++ "-" ++ rt := by
    intro g
    rcases h with h | h
    · subst h
      cases cid <;> rfl
    · subst h
      cases jk <;> rfl
  refine ⟨hbranch fresh, fun hne h12 => ?_, rfl⟩
  rw [hbranch f1, hbranch f2] at h12
  exact hne (genName_random_inj rt f1 f2 h12)

/-- Witness for C10: a partially specified identity (`call_id = None`) falls
into the random branch and distinct draws give distinct names. -/
theorem genName_partial_identity_witness :
    genName "instance" (some "J") none "blue-cat" = "lithops-" ++ "blue-cat" ++ "-" ++ "instance" ∧
    genName "instance" (some "J") none "blue-cat" ≠ genName "instance" (some "J") none "red-dog" :=
  have t := genName_partial_identity "instance" (some "J") none "blue-cat" "blue-cat" "red-dog"
    "J" "7" (Or.inr rfl)
  ⟨t.1, t.2.1 (by decide)⟩

/-- C2 (confirmed): the `create_runtime` readiness loop always terminates
within its budget of 15 polls: if some poll among the first 15 reports every
condition `'True'`, the loop stops at the first such poll and caches that
poll's `url` in `self._service_url`; otherwise it raises carrying the 15th
(last observed) status. -/
theorem create_runtime_poll_bounded (polls : Nat → SvcStatus) (st : CRState) :
    ((∃ jr, jr < 15 ∧ svcReady (polls jr) = true) →
      ∃ jr, jr < 15 ∧ svcReady (polls jr) = true ∧
        (∀ k, k < jr → svcReady (polls k) = false) ∧
        createRuntimeWait polls st = .ok { st with service_url := some (polls jr).url }) ∧
    ((∀ jr, jr < 15 → svcReady (polls jr) = false) →
      createRuntimeWait polls st = .error (polls 14)) := by
  constructor
  · intro hex
    have hj := Nat.find_spec hex
    have hk0 : ∀ k, k < Nat.find hex → svcReady (polls k) = false := by
      intro k hk
      have h15 : k < 15 := lt_trans hk hj.1
      have hmin := Nat.find_min hex hk
      cases hsv : svcReady (polls k) with
      | false => rfl
      | true => exact absurd ⟨h15, hsv⟩ hmin
    refine ⟨Nat.find hex, hj.1, hj.2, hk0, ?_⟩
    have hw := waitReady_ok polls (Nat.find hex) 15 0 hj.1
      (by rw [Nat.zero_add]; exact hj.2)
      (by intro k hk; rw [Nat.zero_add]; exact hk0 k hk)
    rw [Nat.zero_add] at hw
    unfold createRuntimeWait
    rw [hw]
  · intro hall
    have hw := waitReady_err polls 14 0
      (by intro k hk; rw [Nat.zero_add]; exact hall k hk)
    rw [Nat.zero_add] at hw
    unfold createRuntimeWait
    rw [show (15 : Nat) = 14 + 1 from rfl, hw]

/-- Witness for C2: a sequence becoming ready at the third poll exits with its
url; an always-failing sequence raises with the 15th poll's status. -/
theorem create_runtime_poll_bounded_witness :
    (∃ jr, jr < 15 ∧ svcReady (w2polls jr) = true) ∧
    (∃ jr, jr < 15 ∧ svcReady (w2polls jr) = true ∧
      (∀ k, k < jr → svcReady (w2polls k) = false) ∧
      createRuntimeWait w2polls w2state =
        .ok { w2state with service_url := some (w2polls jr).url }) ∧
    (∀ jr, jr < 15 → svcReady (w2bad jr) = false) ∧
    createRuntimeWait w2bad w2state = .error (w2bad 14) :=
  ⟨by decide, (create_runtime_poll_bounded w2polls w2state).1 (by decide),
    by decide, (create_runtime_poll_bounded w2bad w2state).2 (by decide)⟩

/-- Counterexample for C3 as frozen: with version `"2.2.15"`, the round trip
on `("py39", 256)` yields `("lithops/2-2-15:py39", 256)`, not `("py39", 256)`
— `_unformat_service_name` rebuilds an image-style name, it does not invert
`_format_service_name` on the runtime name. -/
theorem unformat_format_not_roundtrip :
    unformatServiceName (formatServiceName ['2', '.', '2', '.', '1', '5']
      ['p', 'y', '3', '9'] 256) ≠ some (['p', 'y', '3', '9'], 256) := by decide

/-- C3 (corrected): the name derivation round-trips only on the memory
component; the name component is mapped to the image-style string
`"lithops/" ++ version(dots→dashes) ++ ":" ++ runtime_name(dots removed)`
(whenever neither transformed component contains `"--"` and the version
component does not end in `'-'`). -/
theorem unformat_format_amended (version name : List Char) (m : Nat)
    (h1 : noDD (replaceAllL '.' [] ['-'] version) = true)
    (h2 : (replaceAllL '.' [] ['-'] version).getLast? ≠ some '-')
    (h3 : noDD (replaceAllL '.' [] [] name) = true) :
    unformatServiceName (formatServiceName version name m) =
      some (lithopsChars ++ '/' :: (replaceAllL '.' [] ['-'] version ++ ':' ::
        replaceAllL '.' [] [] name), m) := by
  unfold formatServiceName
  exact unformat_glue _ _ m h1 h2 h3

/-- Witness for the amended C3 at version `"2.2.15"`, name `"py39"`, memory
256. -/
theorem unformat_format_amended_witness :
    (noDD (replaceAllL '.' [] ['-'] ['2', '.', '2', '.', '1', '5']) = true ∧
      (replaceAllL '.' [] ['-'] ['2', '.', '2', '.', '1', '5']).getLast? ≠ some '-' ∧
      noDD (replaceAllL '.' [] [] ['p', 'y', '3', '9']) = true) ∧
    unformatServiceName (formatServiceName ['2', '.', '2', '.', '1', '5']
        ['p', 'y', '3', '9'] 256) =
      some (lithopsChars ++ '/' :: (replaceAllL '.' [] ['-'] ['2', '.', '2', '.', '1', '5'] ++
        ':' :: replaceAllL '.' [] [] ['p', 'y', '3', '9']), 256) :=
  ⟨⟨by decide, by decide, by decide⟩,
    unformat_format_amended ['2', '.', '2', '.', '1', '5'] ['p', 'y', '3', '9'] 256
      (by decide) (by decide) (by decide)⟩

theorem getServiceEndpoint_url (env : CREnv) (st : CRState) (svcName : String) :
    (getServiceEndpoint env st svcName).1 = st.service_url.getD env.serviceUrl := by
  unfold getServiceEndpoint
  cases st.service_url <;> rfl

theorem buildInvokerSess_service_url (env : CREnv) (st : CRState) (svcName route : String) :
    (buildInvokerSess env st svcName route).2.service_url.getD env.serviceUrl =
      st.service_url.getD env.serviceUrl := by
  unfold buildInvokerSess
  split
  · unfold getServiceEndpoint
    cases h : st.service_url with
    | some u => simp [h]
    | none => simp [h]
  · rfl

/-- `invoke` always produces the same trace — the session-building endpoint
read (when any) followed by the POST — whatever the response status, body and
`return_result` are. -/
theorem invokeModel_trace (env : CREnv) (st : CRState) (version runtime_name : String)
    (memory : Nat) (pl : Payload) (rr : Bool) :
    (invokeModel env st version runtime_name memory pl rr).2.1 =
      (buildInvokerSess env st (String.mk (formatServiceName version.data
        runtime_name.data memory)) (pl.service_route.getD "/")).1 ++
      (getServiceEndpoint env (buildInvokerSess env st (String.mk (formatServiceName
        version.data runtime_name.data memory)) (pl.service_route.getD "/")).2
        (String.mk (formatServiceName version.data runtime_name.data memory))).2.1 ++
      [CRAction.post ((getServiceEndpoint env (buildInvokerSess env st (String.mk
        (formatServiceName version.data runtime_name.data memory))
        (pl.service_route.getD "/")).2 (String.mk (formatServiceName version.data
        runtime_name.data memory))).1 ++ pl.service_route.getD "/")] := by
  simp only [invokeModel]
  split
  · split
    · rfl
    · split
      · rfl
      · split
        · rfl
        · rfl
  · rfl

/-- C5 (code_bug): for any response status outside `(200, 202)`, `invoke`
falls off the end of the method and returns Python `None` — it raises nothing
and surfaces neither the status nor the body, contrary to the specified
`InvocationError`. -/
theorem invoke_swallows_non_success (env : CREnv) (st : CRState)
    (version runtime_name : String) (memory : Nat) (pl : Payload) (rr : Bool)
    (h200 : env.status ≠ 200) (h202 : env.status ≠ 202) :
    (invokeModel env st version runtime_name memory pl rr).1 = Except.ok none := by
  simp only [invokeModel]
  rw [if_neg (by rintro (h | h); exacts [h200 h, h202 h])]

/-- Witness for C5: an HTTP 500 response is silently swallowed. -/
theorem invoke_swallows_non_success_witness :
    (w5env.status ≠ 200 ∧ w5env.status ≠ 202) ∧
    (invokeModel w5env w2state "2.2.15" "py39" 256 c6payload false).1 = Except.ok none :=
  ⟨by decide,
    invoke_swallows_non_success w5env w2state "2.2.15" "py39" 256 c6payload false
      (by decide) (by decide)⟩

/-- Counterexample for C6 as frozen: on a backend object in its initial state
(no session, no cached service url — nothing has been provisioned or checked),
`invoke` does not fail with any readiness error: it issues a control-plane
endpoint lookup and then POSTs the payload to the unit, returning the
activation id. -/
theorem invoke_no_ready_check_counterexample :
    (invokeModel c6env w2state "2.2.15" "py39" 256 c6payload false).2.1 =
      [CRAction.apiGetService "lithops--2-2-15--py39--256mb",
        CRAction.post "https://svc.example/"] ∧
    (invokeModel c6env w2state "2.2.15" "py39" 256 c6payload false).1 =
      Except.ok (some (InvRes.actId "abc123")) := by decide

/-- C6 (corrected): `invoke` performs no readiness check whatsoever: for every
backend state — including one where nothing has been provisioned — its trace
contains the POST of the payload to `endpoint + route`; no `NotReadyError`
path exists in the method. -/
theorem invoke_always_posts (env : CREnv) (st : CRState) (version runtime_name : String)
    (memory : Nat) (pl : Payload) (rr : Bool) :
    CRAction.post ((st.service_url.getD env.serviceUrl) ++ pl.service_route.getD "/") ∈
      (invokeModel env st version runtime_name memory pl rr).2.1 := by
  rw [invokeModel_trace]
  refine List.mem_append.mpr (Or.inr ?_)
  rw [getServiceEndpoint_url, buildInvokerSess_service_url]
  exact List.mem_singleton.mpr rfl

end LithopsSpec
